import Mathlib

/-!
Shallow embedding of `html-webpack-tags-plugin` (`src/index.js`) and proofs
about its option-normalization and tag-ordering engine.

Conventions of the embedding:
* JavaScript `undefined` for an optional field is `Option.none`; a field that
  validation requires to be of one JS type is modelled at that type, so shape
  assertions that can only fail on a differently-typed value are vacuously
  true here and are recorded in comments.
* Fallible code (`assert(cond, message)`) becomes `Except String`, carrying
  the assertion message.
* The external collaborators `glob.sync` and `minimatch` are parameters
  (`globSync : String → String → List String`, `mm : String → String → Bool`).
* `path.join` and `slash` are embedded concretely (POSIX semantics), below.
-/

namespace HtmlWebpackTags

/-- Splits a character list on `'/'`, keeping empty segments, as
`String.prototype.split('/')` does. -/
def splitSlash : List Char → List (List Char)
  | [] => [[]]
  | c :: rest =>
    match splitSlash rest with
    | [] => [[]]
    | seg :: segs => if c = '/' then [] :: seg :: segs else (c :: seg) :: segs

/-- One step of Node's `normalizeString`: drops empty and `"."` segments,
resolves `".."` against the accumulated stack, keeping leading `".."`
segments only when `allowAboveRoot` (i.e. for relative paths). -/
def normSegAcc (allowAboveRoot : Bool) (acc : List (List Char)) (seg : List Char) : List (List Char) :=
  if seg = [] ∨ seg = ['.'] then acc
  else if seg = ['.', '.'] then
    match acc.getLast? with
    | some last =>
      if last ≠ ['.', '.'] then acc.dropLast
      else if allowAboveRoot then acc ++ [seg] else acc
    | none => if allowAboveRoot then [seg] else acc
  else acc ++ [seg]

/-- Node `path.posix`'s `normalizeString` over pre-split segments. -/
def normSegs (segs : List (List Char)) (allowAboveRoot : Bool) : List (List Char) :=
  segs.foldl (normSegAcc allowAboveRoot) []

/-- Embedding of Node `path.posix.normalize`. -/
def posixNormalize (s : String) : String :=
  if s.data = [] then "."
  else
    let isAbsolute := s.data.head? = some '/'
    let trailingSeparator := s.data.getLast? = some '/'
    let core := List.intercalate ['/'] (normSegs (splitSlash s.data) (!decide isAbsolute))
    let core := if core = [] ∧ ¬isAbsolute then ['.'] else core
    let core := if core ≠ [] ∧ trailingSeparator then core ++ ['/'] else core
    String.mk (if isAbsolute then '/' :: core else core)

/-- Embedding of Node `path.join` (POSIX flavour) for two arguments: empty
arguments are dropped, the rest are joined with `'/'` and normalized; with
no nonempty argument the result is `"."`. -/
def pathJoin (a b : String) : String :=
  if a.isEmpty && b.isEmpty then "."
  else if a.isEmpty then posixNormalize b
  else if b.isEmpty then posixNormalize a
  else posixNormalize (a ++ "/" ++ b)

/-- Embedding of the `slash` package (`src/index.js` line 6): extended-length
Windows paths are returned unchanged, otherwise every backslash becomes a
forward slash. -/
def slash (p : String) : String :=
  if p.data.take 4 = ['\\', '\\', '?', '\\'] then p
  else String.mk (p.data.map fun c => if c = '\\' then '/' else c)

/-- Matching of one character of an extension pattern, as the JavaScript
regular expression built by `createExtensionsRegex` reads it: a literal `'.'`
in a configured extension is the regex wildcard `.` (any character except a
line terminator); every other character matches literally. -/
def extPatternCharTest (pc c : Char) : Bool :=
  if pc = '.' then !(c == '\n' || c == '\r' || c == '\u2028' || c == '\u2029')
  else pc == c

/-- Whether `RegExp(".*(" ++ ext ++ ")$").test value` holds for a single
extension `ext` containing no regex metacharacter other than `'.'`: the
final `ext.length` characters of `value` must match `ext` character-wise
under `extPatternCharTest`. -/
def extSuffixTest (ext : String) (value : String) : Bool :=
  decide (ext.data.length ≤ value.data.length) &&
    ((value.data.drop (value.data.length - ext.data.length)).zip ext.data).all
      fun pc => extPatternCharTest pc.2 pc.1

/-- Embedding of `createExtensionsRegex` (`src/index.js` line 52): the source
compiles `new RegExp(".*(" ++ extensions.join("|") ++ ")$")` and exposes its
`test`; the alternation makes the test succeed when any configured extension
matches a terminal substring. Faithful for nonempty extension lists whose
entries contain no regex metacharacter other than `'.'` (the defaults `.js`,
`.css` are such). -/
def createExtensionsRegex (extensions : List String) : String → Bool :=
  fun value => extensions.any fun ext => extSuffixTest ext value

/-- Value of a per-tag `publicPath`/`hash` override: validation
(`src/index.js` lines 127-134) admits a boolean or a function returning a
string, so the embedding carries exactly those. -/
inductive BoolOrFn where
  | bool (b : Bool)
  | fn (f : String → String → String)

/-- Value of a tag `attributes` entry: validation (`src/index.js` lines
138-145) admits strings, booleans or numbers. -/
inductive AttrValue where
  | str (s : String)
  | bool (b : Bool)
  | num (n : Int)

/-- Raw `external` object of a tag: its two fields are checked to be strings
by `validateTagObjectExternals`, so each is an optional string here
(`none` = the field is absent or `undefined`). -/
structure RawExternal where
  packageName : Option String
  variableName : Option String

/-- One raw tag specification in object form, with every optional field
`undefined`-able, as `getTagObjects` (`src/index.js` lines 115-165)
receives it. `type` is kept as a raw string because the source validates it
against `ASSET_TYPES` at split time. -/
structure RawTag where
  path : Option String
  type : Option String
  append : Option Bool
  publicPath : Option BoolOrFn
  hash : Option BoolOrFn
  sourcePath : Option String
  attributes : Option (List (String × AttrValue))
  glob : Option String
  globPath : Option String
  external : Option RawExternal

/-- The tag descriptor produced for a plain string specification `s`:
`{ path: s }` with every other field absent (`src/index.js` lines 118-121). -/
def pathTag (s : String) : RawTag :=
  { path := some s, type := none, append := none, publicPath := none,
    hash := none, sourcePath := none, attributes := none, glob := none,
    globPath := none, external := none }

/-- One item of a `tags`/`links`/`scripts` option: a string or an object
(`src/index.js` line 117). -/
inductive RawTagSpec where
  | str (s : String)
  | obj (t : RawTag)

/-- A whole `tags`/`links`/`scripts` option: a single item or an array of
items (`src/index.js` lines 169-179). -/
inductive RawTags where
  | one (spec : RawTagSpec)
  | arr (items : List RawTagSpec)

/-- A `jsExtensions`/`cssExtensions`/`files` option: a single string or an
array of strings. -/
inductive StrOrList where
  | str (s : String)
  | list (l : List String)

/-- Top-level `publicPath`/`hash` shorthand value: boolean, string, or a
function returning a string (`src/index.js` lines 241-253). -/
inductive TopShortcut where
  | bool (b : Bool)
  | str (s : String)
  | fn (f : String → String → String)

/-- The raw top-level options object of the plugin, each field optional
(`undefined` = `none`). `htmlPluginName` is host glue and is out of the
model. -/
structure RawOptions where
  append : Option Bool
  publicPath : Option TopShortcut
  usePublicPath : Option Bool
  addPublicPath : Option (String → String → String)
  hash : Option TopShortcut
  useHash : Option Bool
  addHash : Option (String → String → String)
  jsExtensions : Option StrOrList
  cssExtensions : Option StrOrList
  tags : Option RawTags
  links : Option RawTags
  scripts : Option RawTags
  files : Option StrOrList

/-- A `RawOptions` value with every field absent. -/
def emptyRawOptions : RawOptions :=
  { append := none, publicPath := none, usePublicPath := none,
    addPublicPath := none, hash := none, useHash := none, addHash := none,
    jsExtensions := none, cssExtensions := none, tags := none, links := none,
    scripts := none, files := none }

/-- The mutable option scope threaded through validation: `DEFAULT_OPTIONS`
(`src/index.js` lines 22-33) and the result shape of
`getValidatedMainOptions` (a spread of the defaults with the five resolved
main fields). -/
structure DefaultOptions where
  append : Bool
  useHash : Bool
  addHash : String → String → String
  usePublicPath : Bool
  addPublicPath : String → String → String
  jsExtensions : List String
  cssExtensions : List String
  tags : List RawTag
  links : List RawTag
  scripts : List RawTag

/-- Embedding of `DEFAULT_OPTIONS` (`src/index.js` lines 22-33). -/
def DEFAULT_OPTIONS : DefaultOptions :=
  { append := true,
    useHash := false,
    addHash := fun assetPath hash => assetPath ++ "?" ++ hash,
    usePublicPath := true,
    addPublicPath := fun assetPath publicPath => pathJoin publicPath assetPath,
    jsExtensions := [".js"],
    cssExtensions := [".css"],
    tags := [], links := [], scripts := [] }

/-- Embedding of `isType` (`src/index.js` line 44): membership of
`ASSET_TYPES = ["css", "js"]`. -/
def isType (ty : String) : Bool := ty == "css" || ty == "js"

/-- Embedding of `isTypeCss` (`src/index.js` line 46). -/
def isTypeCss (ty : String) : Bool := ty == "css"

/-- Embedding of `getExtensions` (`src/index.js` lines 54-68): `undefined`
falls back to the default list, a single string becomes a one-element list,
an array is used as is (its string-element assertions are vacuous here). -/
def getExtensions (extOpt : Option StrOrList) (defaultExtensions : List String) : List String :=
  match extOpt with
  | none => defaultExtensions
  | some (.str s) => [s]
  | some (.list l) => l

/-- Embedding of `getHasExtensions` (`src/index.js` lines 70-73). -/
def getHasExtensions (extOpt : Option StrOrList) (defaultExtensions : List String) : String → Bool :=
  createExtensionsRegex (getExtensions extOpt defaultExtensions)

/-- Embedding of `getTagObjects` (`src/index.js` lines 115-165), the Tag
Descriptor Normalizer, parameterized by the external collaborator
`glob.sync` (`globSync pattern cwd` = the matched relative paths, in match
order). A string spec wraps into `{ path }`; an object spec must have a
string `path` (asserted before anything else); when `glob` or `globPath` is
declared both must be strings, the glob is expanded, zero matches fail, and
each match yields a descriptor inheriting every field but `glob`/`globPath`
with `path` set to `slash(path.join(tag.path, match))`. The boolean/function
shape assertions on `append`, `publicPath`, `hash`, `sourcePath` and
`attributes` are vacuous at this model's types. -/
def getTagObjects (globSync : String → String → List String) (tag : RawTagSpec)
    (optionName optionPath : String) : Except String (List RawTag) :=
  match tag with
  | .str s => .ok [pathTag s]
  | .obj t =>
    match t.path with
    | none => .error (optionPath ++ "." ++ optionName ++ " object must have a string path property")
    | some basePath =>
      if t.glob.isSome || t.globPath.isSome then
        match t.glob with
        | none => .error (optionPath ++ "." ++ optionName ++ " object should have a string glob property")
        | some assetGlob =>
          match t.globPath with
          | none => .error (optionPath ++ "." ++ optionName ++ " object should have a string globPath property")
          | some globPath =>
            let globAssets := globSync assetGlob globPath
            let globAssetPaths := globAssets.map fun globAsset => slash (pathJoin basePath globAsset)
            if 0 < globAssetPaths.length then
              .ok (globAssetPaths.map fun globAssetPath =>
                { t with glob := none, globPath := none, path := some globAssetPath })
            else
              .error (optionPath ++ "." ++ optionName ++ " object glob found no files (" ++
                basePath ++ " " ++ assetGlob ++ " " ++ globPath ++ ")")
      else .ok [t]

/-- Normalization of a list of raw tag specs in order, concatenating the
descriptors each yields; the first failing item aborts (the array branch of
`getValidatedTagObjects`, `src/index.js` lines 172-176). -/
def concatTagObjectsList (globSync : String → String → List String) (items : List RawTagSpec)
    (optionName optionPath : String) : Except String (List RawTag) :=
  match items with
  | [] => .ok []
  | item :: rest =>
    match getTagObjects globSync item optionName optionPath with
    | .error e => .error e
    | .ok objs =>
      match concatTagObjectsList globSync rest optionName optionPath with
      | .error e => .error e
      | .ok more => .ok (objs ++ more)

/-- Embedding of `getValidatedTagObjects` (`src/index.js` lines 167-182) for
a present option value: a single spec is normalized directly, an array item
by item. -/
def getValidatedTagObjects (globSync : String → String → List String) (tags : RawTags)
    (optionName optionPath : String) : Except String (List RawTag) :=
  match tags with
  | .one spec => getTagObjects globSync spec optionName optionPath
  | .arr items => concatTagObjectsList globSync items optionName optionPath

/-- Embedding of `getAllTagObjects` (`src/index.js` lines 184-198) for a
present option value: normalizes, then gives every descriptor lacking an
explicit `append` the scope default. -/
def getAllTagObjects (globSync : String → String → List String) (tags : RawTags) (append : Bool)
    (optionName optionPath : String) : Except String (List RawTag) :=
  match getValidatedTagObjects globSync tags optionName optionPath with
  | .error e => .error e
  | .ok tagObjects =>
    .ok (tagObjects.map fun tag =>
      if tag.append.isNone then { tag with append := some append } else tag)

/-- Recursion of `splitLinkScriptTags`'s `forEach` (`src/index.js` lines
93-110), processing tags in order so the first offending tag raises the
error: a tag with an explicit `type` is validated against `css`/`js` and
pushed (with `type` spread away) onto the matching bucket; otherwise the
path is classified by the extension checkers (CSS first), and a path
matching neither checker fails. A tag whose `path` is `undefined` reaches
`RegExp.test` as the coerced string `"undefined"`, which the model mirrors
(post-validation tags always carry a string path). -/
def splitLinkScriptTagsAux (isAssetTypeCss isAssetTypeJs : String → Bool)
    (optionName optionPath : String) : List RawTag → Except String (List RawTag × List RawTag)
  | [] => .ok ([], [])
  | tagObject :: rest =>
    match tagObject.type with
    | some ty =>
      if isType ty then
        match splitLinkScriptTagsAux isAssetTypeCss isAssetTypeJs optionName optionPath rest with
        | .error e => .error e
        | .ok (linkObjects, scriptObjects) =>
          if isTypeCss ty then .ok ({ tagObject with type := none } :: linkObjects, scriptObjects)
          else .ok (linkObjects, { tagObject with type := none } :: scriptObjects)
      else .error (optionPath ++ "." ++ optionName ++ " type must be css or js (" ++ ty ++ ")")
    | none =>
      let p := match tagObject.path with | some s => s | none => "undefined"
      if isAssetTypeCss p then
        match splitLinkScriptTagsAux isAssetTypeCss isAssetTypeJs optionName optionPath rest with
        | .error e => .error e
        | .ok (linkObjects, scriptObjects) => .ok (tagObject :: linkObjects, scriptObjects)
      else if isAssetTypeJs p then
        match splitLinkScriptTagsAux isAssetTypeCss isAssetTypeJs optionName optionPath rest with
        | .error e => .error e
        | .ok (linkObjects, scriptObjects) => .ok (linkObjects, tagObject :: scriptObjects)
      else .error (optionPath ++ "." ++ optionName ++ " could not determine asset type for (" ++ p ++ ")")

/-- Embedding of `splitLinkScriptTags` (`src/index.js` lines 88-113): builds
the two extension checkers from the options (`getAssetTypeCheckers`,
lines 75-86) and partitions the tag objects into link (CSS) and script (JS)
buckets, preserving order. -/
def splitLinkScriptTags (tagObjects : List RawTag) (options : RawOptions)
    (optionName optionPath : String) : Except String (List RawTag × List RawTag) :=
  splitLinkScriptTagsAux
    (getHasExtensions options.cssExtensions DEFAULT_OPTIONS.cssExtensions)
    (getHasExtensions options.jsExtensions DEFAULT_OPTIONS.jsExtensions)
    optionName optionPath tagObjects

/-- Embedding of `validateTagObjectExternals` (`src/index.js` lines
200-217): on non-script tags any declared `external` fails; on script tags
`external` must carry string `packageName` and `variableName` (the
`isObject` assertion is vacuous at this model's types, and the combined
`packageName || variableName` assertion fires first when both are
missing). -/
def validateTagObjectExternals (tagObjects : List RawTag) (isScript : Bool)
    (optionName optionPath : String) : Except String Unit :=
  match tagObjects with
  | [] => .ok ()
  | tagObject :: rest =>
    match tagObject.external with
    | none => validateTagObjectExternals rest isScript optionName optionPath
    | some ex =>
      if isScript then
        if ex.packageName.isNone && ex.variableName.isNone then
          .error (optionPath ++ "." ++ optionName ++ ".external should have a string packageName and variableName property")
        else if ex.packageName.isNone then
          .error (optionPath ++ "." ++ optionName ++ ".external should have a string packageName property")
        else if ex.variableName.isNone then
          .error (optionPath ++ "." ++ optionName ++ ".external should have a string variableName property")
        else validateTagObjectExternals rest isScript optionName optionPath
      else .error (optionPath ++ "." ++ optionName ++ ".external should not be used on non script tags")

/-- Embedding of `processShortcuts` (`src/index.js` lines 229-256) for one
shorthand family, the dynamic keys replaced by the three extracted option
values plus their names. When the fine-grained pair is used the shorthand
must be absent; otherwise a boolean shorthand sets the use flag, a string
shorthand enables the transform `path => add(path, shortcut)` (the runtime
value is ignored), and a function shorthand becomes the transform. The
boolean/function shape assertions are vacuous at this model's types. -/
def processShortcuts (shortcut : Option TopShortcut) (useOpt : Option Bool)
    (addOpt : Option (String → String → String)) (optionPath keyShortcut keyUse keyAdd : String)
    (add : String → String → String) :
    Except String (Option Bool × Option (String → String → String)) :=
  if useOpt.isSome || addOpt.isSome then
    if shortcut.isSome then
      .error (optionPath ++ "." ++ keyShortcut ++ " should not be used with either " ++ keyUse ++ " or " ++ keyAdd)
    else .ok (useOpt, addOpt)
  else
    match shortcut with
    | none => .ok (none, none)
    | some (.bool b) => .ok (some b, none)
    | some (.str s) => .ok (some true, some (fun path _ => add path s))
    | some (.fn f) => .ok (some true, some f)

/-- Embedding of `getValidatedMainOptions` (`src/index.js` lines 258-288):
resolves `append` and the two shorthand families against the incoming
default scope and returns the scope with the five main fields replaced
(the `isObject`/`isBoolean` assertions are vacuous at this model's
types). -/
def getValidatedMainOptions (options : RawOptions) (optionPath : String)
    (defaultOptions : DefaultOptions) : Except String DefaultOptions :=
  let append := options.append.getD defaultOptions.append
  match processShortcuts options.publicPath options.usePublicPath options.addPublicPath
      optionPath "publicPath" "usePublicPath" "addPublicPath" defaultOptions.addPublicPath with
  | .error e => .error e
  | .ok publicPathOptions =>
    let usePublicPath := publicPathOptions.1.getD defaultOptions.usePublicPath
    let addPublicPath := publicPathOptions.2.getD defaultOptions.addPublicPath
    match processShortcuts options.hash options.useHash options.addHash
        optionPath "hash" "useHash" "addHash" defaultOptions.addHash with
    | .error e => .error e
    | .ok hashOptions =>
      let useHash := hashOptions.1.getD defaultOptions.useHash
      let addHash := hashOptions.2.getD defaultOptions.addHash
      .ok { defaultOptions with
        append := append, usePublicPath := usePublicPath, addPublicPath := addPublicPath,
        useHash := useHash, addHash := addHash }

/-- The `tags` block of `getValidatedOptions` (`src/index.js` lines
296-303): when `tags` is declared, normalize with the resolved `append`
default, split into link/script buckets, and validate externals on each
bucket (CSS buckets first), returning the pair to be concatenated onto
`links` and `scripts`. -/
def tagsSurface (globSync : String → String → List String) (options : RawOptions)
    (append : Bool) (optionPath : String) : Except String (List RawTag × List RawTag) :=
  match options.tags with
  | none => .ok ([], [])
  | some tv =>
    match getAllTagObjects globSync tv append "tags" optionPath with
    | .error e => .error e
    | .ok tagObjects =>
      match splitLinkScriptTags tagObjects options "tags" optionPath with
      | .error e => .error e
      | .ok (linkObjects, scriptObjects) =>
        match validateTagObjectExternals linkObjects false "tags" optionPath with
        | .error e => .error e
        | .ok _ =>
          match validateTagObjectExternals scriptObjects true "tags" optionPath with
          | .error e => .error e
          | .ok _ => .ok (linkObjects, scriptObjects)

/-- The `links` block of `getValidatedOptions` (`src/index.js` lines
304-308): every declared link is CSS-bound, so externals are validated with
`isScript = false`. -/
def linksSurface (globSync : String → String → List String) (options : RawOptions)
    (append : Bool) (optionPath : String) : Except String (List RawTag) :=
  match options.links with
  | none => .ok []
  | some lv =>
    match getAllTagObjects globSync lv append "links" optionPath with
    | .error e => .error e
    | .ok linkObjects =>
      match validateTagObjectExternals linkObjects false "links" optionPath with
      | .error e => .error e
      | .ok _ => .ok linkObjects

/-- The `scripts` block of `getValidatedOptions` (`src/index.js` lines
309-313). -/
def scriptsSurface (globSync : String → String → List String) (options : RawOptions)
    (append : Bool) (optionPath : String) : Except String (List RawTag) :=
  match options.scripts with
  | none => .ok []
  | some sv =>
    match getAllTagObjects globSync sv append "scripts" optionPath with
    | .error e => .error e
    | .ok scriptObjects =>
      match validateTagObjectExternals scriptObjects true "scripts" optionPath with
      | .error e => .error e
      | .ok _ => .ok scriptObjects

/-- The immutable Resolved Options produced by `getValidatedOptions`
(`src/index.js` lines 319-331). -/
structure ValidatedOptions where
  links : List RawTag
  linksPrepend : List RawTag
  linksAppend : List RawTag
  scripts : List RawTag
  scriptsPrepend : List RawTag
  scriptsAppend : List RawTag
  append : Bool
  usePublicPath : Bool
  addPublicPath : String → String → String
  useHash : Bool
  addHash : String → String → String

/-- The tail of `getValidatedOptions` (`src/index.js` lines 314-331):
partitions the merged `links` and `scripts` sequences by the JavaScript
truthiness of each tag's `append` (an absent `append` is falsy, hence
`Option.getD false`) and packages the result record. -/
def finalizeValidatedOptions (links scripts : List RawTag) (main : DefaultOptions) :
    ValidatedOptions :=
  { links := links,
    linksPrepend := links.filter fun t => !(t.append.getD false),
    linksAppend := links.filter fun t => t.append.getD false,
    scripts := scripts,
    scriptsPrepend := scripts.filter fun t => !(t.append.getD false),
    scriptsAppend := scripts.filter fun t => t.append.getD false,
    append := main.append,
    usePublicPath := main.usePublicPath,
    addPublicPath := main.addPublicPath,
    useHash := main.useHash,
    addHash := main.addHash }

/-- Embedding of `getValidatedOptions` (`src/index.js` lines 290-332): main
options first, then the `tags`, `links` and `scripts` surfaces in that
order, each concatenated in declaration order onto the default (empty)
seeds, then the partition into the four buckets. -/
def getValidatedOptions (globSync : String → String → List String) (options : RawOptions)
    (optionPath : String) (defaultOptions : DefaultOptions) : Except String ValidatedOptions :=
  match getValidatedMainOptions options optionPath defaultOptions with
  | .error e => .error e
  | .ok main =>
    match tagsSurface globSync options main.append optionPath with
    | .error e => .error e
    | .ok ts =>
      match linksSurface globSync options main.append optionPath with
      | .error e => .error e
      | .ok linkObjects =>
        match scriptsSurface globSync options main.append optionPath with
        | .error e => .error e
        | .ok scriptObjects =>
          .ok (finalizeValidatedOptions
            (defaultOptions.links ++ ts.1 ++ linkObjects)
            (defaultOptions.scripts ++ ts.2 ++ scriptObjects) main)

/-- Embedding of `getAllValidatedOptions` (`src/index.js` lines 360-374):
validates the core options and normalizes `files` to an optional list of
patterns (a single string wraps into a one-element array; the
array-of-strings assertion is vacuous at this model's types). -/
def getAllValidatedOptions (globSync : String → String → List String) (options : RawOptions)
    (optionPath : String) : Except String (ValidatedOptions × Option (List String)) :=
  match getValidatedOptions globSync options optionPath DEFAULT_OPTIONS with
  | .error e => .error e
  | .ok validatedOptions =>
    match options.files with
    | none => .ok (validatedOptions, none)
    | some (.str s) => .ok (validatedOptions, some [s])
    | some (.list l) => .ok (validatedOptions, some l)

/-- Embedding of `getShouldSkip` (`src/index.js` lines 219-227),
parameterized by the external collaborator `minimatch`
(`mm outputName pattern`): with no `files` allowlist nothing is skipped;
otherwise a document is skipped when no pattern matches its output name. -/
def getShouldSkip (mm : String → String → Bool) (files : Option (List String))
    (outputName : String) : Bool :=
  match files with
  | none => false
  | some fs => !(fs.any fun file => mm outputName file)

/-- The fields of a validated tag descriptor read by `getTagPath`
(`src/index.js` lines 334-358): the string `path` (guaranteed by
`getTagObjects`), and the per-tag `publicPath`/`hash` overrides. -/
structure TagDesc where
  path : String
  publicPath : Option BoolOrFn
  hash : Option BoolOrFn

/-- Projection of a validated `RawTag` onto the fields `getTagPath` reads.
Validation guarantees `path` is a string; `""` stands in for the impossible
absent case. -/
def RawTag.toTagDesc (t : RawTag) : TagDesc :=
  { path := t.path.getD "", publicPath := t.publicPath, hash := t.hash }

/-- Embedding of `getTagPath` (`src/index.js` lines 334-358), returned
together with the tag descriptor as the function leaves it: the source
destructures `path` into a local and never assigns to `tagObject`, so the
returned descriptor is the input unchanged. The public-path step runs
first (per-tag override: `true` applies the scope transform, a function is
called directly, `false` leaves the path; `undefined` defers to
`usePublicPath`), the hash step second with the same shape, and the result
is separator-normalized with `slash`. -/
def getTagPathSt (tagObject : TagDesc) (options : ValidatedOptions)
    (webpackPublicPath compilationHash : String) : TagDesc × String :=
  let path0 := tagObject.path
  let path1 :=
    match tagObject.publicPath with
    | some (.bool true) => options.addPublicPath path0 webpackPublicPath
    | some (.bool false) => path0
    | some (.fn f) => f path0 webpackPublicPath
    | none => if options.usePublicPath then options.addPublicPath path0 webpackPublicPath else path0
  let path2 :=
    match tagObject.hash with
    | some (.bool true) => options.addHash path1 compilationHash
    | some (.bool false) => path1
    | some (.fn f) => f path1 compilationHash
    | none => if options.useHash then options.addHash path1 compilationHash else path1
  (tagObject, slash path2)

/-- The path returned by `getTagPath` (`src/index.js` lines 334-358). -/
def getTagPath (tagObject : TagDesc) (options : ValidatedOptions)
    (webpackPublicPath compilationHash : String) : String :=
  (getTagPathSt tagObject options webpackPublicPath compilationHash).2

/-- The public-path block of `getTagPath` (`src/index.js` lines 339-347) in
isolation: the path after the public-path transform. -/
def publicPathStep (tagObject : TagDesc) (options : ValidatedOptions)
    (webpackPublicPath : String) : String :=
  match tagObject.publicPath with
  | some (.bool true) => options.addPublicPath tagObject.path webpackPublicPath
  | some (.bool false) => tagObject.path
  | some (.fn f) => f tagObject.path webpackPublicPath
  | none => if options.usePublicPath then options.addPublicPath tagObject.path webpackPublicPath else tagObject.path

/-- The hash block of `getTagPath` (`src/index.js` lines 348-356) in
isolation, applied to the path produced by the preceding step. -/
def hashStep (tagObject : TagDesc) (options : ValidatedOptions) (path : String)
    (compilationHash : String) : String :=
  match tagObject.hash with
  | some (.bool true) => options.addHash path compilationHash
  | some (.bool false) => path
  | some (.fn f) => f path compilationHash
  | none => if options.useHash then options.addHash path compilationHash else path

/-- The object key used by the externals registration
`externals[external.packageName] = external.variableName` (`src/index.js`
line 400): a JavaScript object key is a string, an `undefined` packageName
coercing to `"undefined"`. -/
def externalKey (ex : RawExternal) : String :=
  match ex.packageName with
  | some s => s
  | none => "undefined"

/-- Embedding of the externals registration loop of
`HtmlWebpackTagsPlugin.prototype.apply` (`src/index.js` lines 396-403): the
host externals registry is a string-keyed map; each script carrying an
`external` object assigns `packageName -> variableName` in declaration
order, later assignments overwriting earlier ones. -/
def applyExternals : List RawTag → (String → Option String) → (String → Option String)
  | [], externals => externals
  | script :: rest, externals =>
    match script.external with
    | some ex =>
      applyExternals rest fun name => if name = externalKey ex then ex.variableName else externals name
    | none => applyExternals rest externals

/-- The document-in-progress handed to the "before generation" extension
point: output name, and the in-flight asset model with the per-document
public path and the ordered CSS/JS asset lists. -/
structure HtmlAssets where
  publicPath : String
  css : List String
  js : List String

/-- A rendered tag node handed to the "alter tags" extension point. -/
structure HtmlTag where
  tagName : String
  attributes : List (String × AttrValue)

/-- The per-document data both extension points receive: `head`/`body` are
only populated at the "alter tags" point (the html-webpack-plugin v4
shape). -/
structure HtmlPluginData where
  outputName : String
  assets : HtmlAssets
  head : List HtmlTag
  body : List HtmlTag

/-- Embedding of `onBeforeHtmlGeneration` (`src/index.js` lines 407-461) as
a pure transform: a skipped document is returned unchanged with no source
file registered; otherwise every bucket's paths are resolved against the
document's public path and the compilation hash, spliced around the
existing asset lists, and the second component collects the `sourcePath`
registrations (`addFileToAssets` calls) in the order the source issues
them (scripts-prepend, scripts-append, links-prepend, links-append). -/
def onBeforeHtmlGeneration (mm : String → String → Bool) (files : Option (List String))
    (options : ValidatedOptions) (compilationHash : String) (htmlPluginData : HtmlPluginData) :
    HtmlPluginData × List String :=
  if getShouldSkip mm files htmlPluginData.outputName then (htmlPluginData, [])
  else
    let pluginPublicPath := htmlPluginData.assets.publicPath
    let getPath := fun (tag : RawTag) => getTagPath tag.toTagDesc options pluginPublicPath compilationHash
    let jsPrependPaths := options.scriptsPrepend.map getPath
    let jsAppendPaths := options.scriptsAppend.map getPath
    let cssPrependPaths := options.linksPrepend.map getPath
    let cssAppendPaths := options.linksAppend.map getPath
    let assetPromises :=
      (options.scriptsPrepend ++ options.scriptsAppend ++ options.linksPrepend ++ options.linksAppend).filterMap
        fun tag => tag.sourcePath
    ({ htmlPluginData with assets :=
        { htmlPluginData.assets with
          js := jsPrependPaths ++ htmlPluginData.assets.js ++ jsAppendPaths,
          css := cssPrependPaths ++ htmlPluginData.assets.css ++ cssAppendPaths } },
      assetPromises)

/-- JavaScript `Array.prototype.slice(s)` for an `Int` start index: a
negative start counts from the end, clamped at 0. -/
def jsSliceFrom (l : List α) (s : Int) : List α :=
  if s < 0 then l.drop ((l.length : Int) + s).toNat else l.drop s.toNat

/-- Indices (positions in the surrounding list) of the tags satisfying `p`,
standing in for the object references `filter` shares with the original
array in the source. -/
def tagIndices (p : HtmlTag → Bool) (tags : List HtmlTag) : List Nat :=
  (tags.enum.filter fun it => p it.2).map fun it => it.1

/-- Replaces the element at index `i`, when present. -/
def modifyAt : List α → Nat → (α → α) → List α
  | [], _, _ => []
  | x :: rest, 0, f => f x :: rest
  | x :: rest, n + 1, f => x :: modifyAt rest n f

/-- Setting one key of a JavaScript-object-like attribute map: an existing
key is overwritten in place, a new key is appended. -/
def setAttr : List (String × AttrValue) → String → AttrValue → List (String × AttrValue)
  | [], k, v => [(k, v)]
  | (k0, v0) :: rest, k, v =>
    if k0 = k then (k, v) :: rest else (k0, v0) :: setAttr rest k v

/-- Embedding of `copyAttributes` (`src/index.js` lines 484-494) with the
shared tag-node references replaced by indices into the rendered list: for
each positional pair in order, a descriptor with declared `attributes`
merges them onto the rendered tag's attribute map (new keys added, existing
keys overwritten). -/
def copyAttributesAt (tags : List HtmlTag) (pairs : List (Nat × RawTag)) : List HtmlTag :=
  pairs.foldl
    (fun ts pair =>
      match pair.2.attributes with
      | none => ts
      | some attrs =>
        modifyAt ts pair.1 fun tg =>
          { tg with attributes := attrs.foldl (fun acc kv => setAttr acc kv.1 kv.2) tg.attributes })
    tags

/-- Embedding of `onAlterAssetTag` (`src/index.js` lines 463-504) as a pure
transform: a skipped document is returned unchanged; otherwise the first
`len(linksPrepend)` and last `len(linksAppend)` rendered `<link>` tags (by
count slices, as the source does) receive the corresponding descriptors'
attributes, and likewise for `<script>` tags in the body. -/
def onAlterAssetTag (mm : String → String → Bool) (files : Option (List String))
    (options : ValidatedOptions) (htmlPluginData : HtmlPluginData) : HtmlPluginData :=
  if getShouldSkip mm files htmlPluginData.outputName then htmlPluginData
  else
    let pluginLinks := tagIndices (fun t => t.tagName == "link") htmlPluginData.head
    let pluginScripts := tagIndices (fun t => t.tagName == "script") htmlPluginData.body
    let headPrepend := pluginLinks.take options.linksPrepend.length
    let headAppend := jsSliceFrom pluginLinks ((pluginLinks.length : Int) - (options.linksAppend.length : Int))
    let bodyPrepend := pluginScripts.take options.scriptsPrepend.length
    let bodyAppend := jsSliceFrom pluginScripts ((pluginScripts.length : Int) - (options.scriptsAppend.length : Int))
    let newHead := copyAttributesAt htmlPluginData.head
      ((headPrepend ++ headAppend).zip (options.linksPrepend ++ options.linksAppend))
    let newBody := copyAttributesAt htmlPluginData.body
      ((bodyPrepend ++ bodyAppend).zip (options.scriptsPrepend ++ options.scriptsAppend))
    { htmlPluginData with head := newHead, body := newBody }

example : createExtensionsRegex [".js"] "a.js" = true := rfl
example : createExtensionsRegex [".js"] "a.mjs" = true := rfl
example : createExtensionsRegex [".css"] "a.mjs" = false := rfl
example : createExtensionsRegex [".css"] "x.scss" = true := rfl
example : pathJoin "vendor" "a.js" = "vendor/a.js" := rfl
example : pathJoin "/cdn/" "a.js" = "/cdn/a.js" := rfl
example : slash "vendor\\a.js" = "vendor/a.js" := rfl

/-- A filter by a predicate and by its negation partition a list's length. -/
theorem length_filter_not_add_length_filter (l : List α) (p : α → Bool) :
    (l.filter fun x => !(p x)).length + (l.filter p).length = l.length := by
  induction l with
  | nil => rfl
  | cons a t ih =>
    cases h : p a <;> simp [List.filter_cons, h] <;> omega

/-- Concrete options for the C1 theorems: everything defaulted, so
`jsExtensions = [".js"]` and `cssExtensions = [".css"]`. -/
def c1Options : RawOptions := emptyRawOptions

/-- C1 counterexample: with the default extension lists, classifying the
implicit-type tag `{ path: "a.mjs" }` does NOT fail with a Configuration
Error — the unescaped `.` of the configured extension `".js"` acts as a
regex wildcard, so `"a.mjs"` matches `.*(.js)$` and the tag is classified
JS (pushed onto the script bucket). -/
theorem claim1_counterexample :
    splitLinkScriptTags [pathTag "a.mjs"] c1Options "tags" "HtmlWebpackTagsPlugin.options" =
      .ok ([], [pathTag "a.mjs"]) := rfl

/-- C1 amended: with the default extension lists, a tag without explicit
`type` is classified by testing the compiled patterns with the CSS pattern
first, where `.` in a configured extension matches any single character
(except a line terminator): `"a.js"` → JS, `"a.css"` → CSS, but `"a.mjs"` →
JS rather than a Configuration Error; only a path matching neither pattern
(such as `"a.txt"`) fails with a Configuration Error. -/
theorem claim1_amended :
    (∀ (p optionName optionPath : String),
      splitLinkScriptTags [pathTag p] c1Options optionName optionPath =
        (if createExtensionsRegex [".css"] p then .ok ([pathTag p], [])
         else if createExtensionsRegex [".js"] p then .ok ([], [pathTag p])
         else .error (optionPath ++ "." ++ optionName ++ " could not determine asset type for (" ++ p ++ ")"))) ∧
    splitLinkScriptTags [pathTag "a.js"] c1Options "tags" "HtmlWebpackTagsPlugin.options" =
      .ok ([], [pathTag "a.js"]) ∧
    splitLinkScriptTags [pathTag "a.css"] c1Options "tags" "HtmlWebpackTagsPlugin.options" =
      .ok ([pathTag "a.css"], []) ∧
    splitLinkScriptTags [pathTag "a.mjs"] c1Options "tags" "HtmlWebpackTagsPlugin.options" =
      .ok ([], [pathTag "a.mjs"]) ∧
    splitLinkScriptTags [pathTag "a.txt"] c1Options "tags" "HtmlWebpackTagsPlugin.options" =
      .error "HtmlWebpackTagsPlugin.options.tags could not determine asset type for (a.txt)" := by
  refine ⟨?_, rfl, rfl, rfl, rfl⟩
  intro p optionName optionPath
  show splitLinkScriptTagsAux (createExtensionsRegex [".css"]) (createExtensionsRegex [".js"])
    optionName optionPath [pathTag p] = _
  cases h1 : createExtensionsRegex [".css"] p <;>
    cases h2 : createExtensionsRegex [".js"] p <;>
      simp [splitLinkScriptTagsAux, pathTag, h1, h2]

/-- A glob-directive tag object that declares no `path`. -/
def globOnlyTag : RawTag :=
  { pathTag "" with path := none, glob := some "*.js", globPath := some "/libs" }

/-- C2 counterexample: an object tag carrying a `glob`+`globPath` string
pair but no `path` does NOT normalize successfully — the unconditional
string-`path` assertion fails before the glob branch is reached, whatever
the glob expansion would return. -/
theorem claim2_counterexample :
    getTagObjects (fun _ _ => ["a.js"]) (.obj globOnlyTag) "tags" "HtmlWebpackTagsPlugin.options" =
      .error "HtmlWebpackTagsPlugin.options.tags object must have a string path property" := rfl

/-- C2 amended: object form always requires a string `path` — the presence
of a `glob`+`globPath` pair does not lift the requirement (the declared
`path` is the base joined onto every glob match); every object lacking a
string `path` fails with a Configuration Error. -/
theorem claim2_amended (globSync : String → String → List String) (t : RawTag)
    (optionName optionPath : String) (h : t.path = none) :
    getTagObjects globSync (.obj t) optionName optionPath =
      .error (optionPath ++ "." ++ optionName ++ " object must have a string path property") := by
  simp [getTagObjects, h]

/-- Witness for the amended C2 at a concrete glob-only tag. -/
theorem claim2_amended_witness :
    getTagObjects (fun _ _ => ["a.js", "b.js"]) (.obj globOnlyTag) "links" "opts" =
      .error ("opts" ++ "." ++ "links" ++ " object must have a string path property") :=
  claim2_amended (fun _ _ => ["a.js", "b.js"]) globOnlyTag "links" "opts" rfl

/-- The descriptor of C4's example: `publicPath: true`, `hash: true`. -/
def c4Tag : TagDesc :=
  { path := "a.js", publicPath := some (.bool true), hash := some (.bool true) }

/-- The options of C4's example: `addPublicPath = (p, b) => b + p` and
`addHash = (p, h) => p + "?" + h`. -/
def c4Options : ValidatedOptions :=
  { links := [], linksPrepend := [], linksAppend := [],
    scripts := [], scriptsPrepend := [], scriptsAppend := [],
    append := true, usePublicPath := false,
    addPublicPath := fun p b => b ++ p,
    useHash := false, addHash := fun p h => p ++ "?" ++ h }

/-- C4: path resolution always applies the public-path block first and the
hash block second (for every descriptor, options and runtime values,
`getTagPath` is the separator-normalized composition of the hash step after
the public-path step), and on the claim's example — `publicPath: true` with
`addPublicPath = (p, b) => b + p`, runtime base `/cdn/`, `hash: true` with
`addHash = (p, h) => p + "?" + h`, runtime hash `abc123` — the path
`"a.js"` resolves to `"/cdn/a.js?abc123"`. -/
theorem claim4_public_path_before_hash :
    (∀ (t : TagDesc) (o : ValidatedOptions) (pp ch : String),
      getTagPath t o pp ch = slash (hashStep t o (publicPathStep t o pp) ch)) ∧
    getTagPath c4Tag c4Options "/cdn/" "abc123" = "/cdn/a.js?abc123" := by
  exact ⟨fun t o pp ch => rfl, rfl⟩

/-- C9: resolving a descriptor is pure and non-mutating — `getTagPathSt`
returns the descriptor unchanged (the source never assigns to the tag
object), and resolving again from the returned descriptor with the same
runtime public path and hash yields the identical path string, with no
accumulation of repeated transforms. -/
theorem claim9_resolution_pure (t : TagDesc) (o : ValidatedOptions) (pp ch : String) :
    (getTagPathSt t o pp ch).1 = t ∧
    (getTagPathSt (getTagPathSt t o pp ch).1 o pp ch).2 = (getTagPathSt t o pp ch).2 :=
  ⟨rfl, rfl⟩

/-- C3: for every configuration accepted by `getValidatedOptions`, the CSS
sequence is the concatenation of the CSS descriptors split out of `tags`
followed by the `links` descriptors, in declared order (mirrored for JS
with `tags` then `scripts`); each kind is partitioned by the truthiness of
`append` into a prepend and an append bucket whose lengths sum to the
kind's total and which are sublists of (hence ordered as) the declared
sequence. -/
theorem claim3_partition (globSync : String → String → List String) (opts : RawOptions)
    (optionPath : String) (vo : ValidatedOptions)
    (h : getValidatedOptions globSync opts optionPath DEFAULT_OPTIONS = .ok vo) :
    vo.linksPrepend.length + vo.linksAppend.length = vo.links.length ∧
    vo.scriptsPrepend.length + vo.scriptsAppend.length = vo.scripts.length ∧
    vo.linksPrepend = vo.links.filter (fun t => !(t.append.getD false)) ∧
    vo.linksAppend = vo.links.filter (fun t => t.append.getD false) ∧
    vo.scriptsPrepend = vo.scripts.filter (fun t => !(t.append.getD false)) ∧
    vo.scriptsAppend = vo.scripts.filter (fun t => t.append.getD false) ∧
    List.Sublist vo.linksPrepend vo.links ∧ List.Sublist vo.linksAppend vo.links ∧
    List.Sublist vo.scriptsPrepend vo.scripts ∧ List.Sublist vo.scriptsAppend vo.scripts ∧
    ∃ main ts linkObjects scriptObjects,
      getValidatedMainOptions opts optionPath DEFAULT_OPTIONS = .ok main ∧
      tagsSurface globSync opts main.append optionPath = .ok ts ∧
      linksSurface globSync opts main.append optionPath = .ok linkObjects ∧
      scriptsSurface globSync opts main.append optionPath = .ok scriptObjects ∧
      vo.links = DEFAULT_OPTIONS.links ++ ts.1 ++ linkObjects ∧
      vo.scripts = DEFAULT_OPTIONS.scripts ++ ts.2 ++ scriptObjects := by
  cases hm : getValidatedMainOptions opts optionPath DEFAULT_OPTIONS with
  | error e => simp [getValidatedOptions, hm] at h
  | ok main =>
    cases ht : tagsSurface globSync opts main.append optionPath with
    | error e => simp [getValidatedOptions, hm, ht] at h
    | ok ts =>
      cases hl : linksSurface globSync opts main.append optionPath with
      | error e => simp [getValidatedOptions, hm, ht, hl] at h
      | ok linkObjects =>
        cases hs : scriptsSurface globSync opts main.append optionPath with
        | error e => simp [getValidatedOptions, hm, ht, hl, hs] at h
        | ok scriptObjects =>
          simp only [getValidatedOptions, hm, ht, hl, hs, Except.ok.injEq] at h
          subst h
          exact ⟨length_filter_not_add_length_filter _ _,
            length_filter_not_add_length_filter _ _,
            rfl, rfl, rfl, rfl,
            List.filter_sublist _, List.filter_sublist _,
            List.filter_sublist _, List.filter_sublist _,
            main, ts, linkObjects, scriptObjects, rfl, ht, hl, hs, rfl, rfl⟩

/-- A glob collaborator that always matches nothing (for witnesses that
never reach glob expansion). -/
def gsEmpty : String → String → List String := fun _ _ => []

/-- A JS tag with an explicit `append: false` for the C3 witness. -/
def c3TagJs : RawTag := { pathTag "t2.js" with append := some false }

/-- A concrete configuration for the C3 witness: two `tags` (one CSS, one
JS with `append: false`) and one `links` entry. -/
def c3Options : RawOptions :=
  { emptyRawOptions with
    tags := some (.arr [.str "t1.css", .obj c3TagJs]),
    links := some (.one (.str "l1.css")) }

/-- The resolved options the C3 witness configuration validates to. -/
def c3Vo : ValidatedOptions :=
  finalizeValidatedOptions
    [{ pathTag "t1.css" with append := some true }, { pathTag "l1.css" with append := some true }]
    [c3TagJs] DEFAULT_OPTIONS

/-- Witness for C3 at a concrete configuration. -/
theorem claim3_partition_witness :
    getValidatedOptions gsEmpty c3Options "HtmlWebpackTagsPlugin.options" DEFAULT_OPTIONS = .ok c3Vo ∧
    c3Vo.linksPrepend.length + c3Vo.linksAppend.length = c3Vo.links.length ∧
    c3Vo.scriptsPrepend.length + c3Vo.scriptsAppend.length = c3Vo.scripts.length := by
  exact ⟨rfl,
    (claim3_partition gsEmpty c3Options "HtmlWebpackTagsPlugin.options" c3Vo rfl).1,
    (claim3_partition gsEmpty c3Options "HtmlWebpackTagsPlugin.options" c3Vo rfl).2.1⟩

/-- C5: a tag spec carrying both `glob` and `globPath` expands the glob
against the `globPath` base via the external collaborator; zero matches
fail with a Configuration Error, and otherwise one descriptor is produced
per match in match order, inheriting every declared field except
`glob`/`globPath`, its `path` the separator-normalized join of the declared
base `path` with the matched relative path. -/
theorem claim5_glob_expansion (globSync : String → String → List String) (t : RawTag)
    (base g gp optionName optionPath : String)
    (h1 : t.path = some base) (h2 : t.glob = some g) (h3 : t.globPath = some gp) :
    (globSync g gp = [] →
      getTagObjects globSync (.obj t) optionName optionPath =
        .error (optionPath ++ "." ++ optionName ++ " object glob found no files (" ++
          base ++ " " ++ g ++ " " ++ gp ++ ")")) ∧
    (globSync g gp ≠ [] →
      getTagObjects globSync (.obj t) optionName optionPath =
        .ok ((globSync g gp).map fun m =>
          { t with glob := none, globPath := none, path := some (slash (pathJoin base m)) })) := by
  constructor
  · intro hgl
    simp [getTagObjects, h1, h2, h3, hgl]
  · intro hgl
    have hlen : 0 < (globSync g gp).length := List.length_pos.mpr hgl
    simp [getTagObjects, h1, h2, h3, hlen, List.map_map, Function.comp]

/-- The glob collaborator of the C5 witness, matching two files. -/
def c5GlobSync : String → String → List String := fun _ _ => ["a.js", "b.js"]

/-- The glob spec of the C5 witness:
`{ path: "vendor", glob: "*.js", globPath: "/libs" }`. -/
def c5Tag : RawTag := { pathTag "vendor" with glob := some "*.js", globPath := some "/libs" }

/-- Witness for C5: the example glob spec expands to two descriptors with
paths `vendor/a.js` and `vendor/b.js`, in match order. -/
theorem claim5_glob_expansion_witness :
    getTagObjects c5GlobSync (.obj c5Tag) "tags" "HtmlWebpackTagsPlugin.options" =
      .ok [{ c5Tag with glob := none, globPath := none, path := some "vendor/a.js" },
           { c5Tag with glob := none, globPath := none, path := some "vendor/b.js" }] := by
  have h := (claim5_glob_expansion c5GlobSync c5Tag "vendor" "*.js" "/libs"
    "tags" "HtmlWebpackTagsPlugin.options" rfl rfl rfl).2 (by simp [c5GlobSync])
  rw [h]
  rfl

/-- A shorthand together with its fine-grained family always fails
`processShortcuts` with the exclusivity message. -/
theorem processShortcuts_conflict (shortcut : Option TopShortcut) (useOpt : Option Bool)
    (addOpt : Option (String → String → String)) (optionPath keyShortcut keyUse keyAdd : String)
    (add : String → String → String) (h1 : shortcut.isSome = true)
    (h2 : useOpt.isSome = true ∨ addOpt.isSome = true) :
    processShortcuts shortcut useOpt addOpt optionPath keyShortcut keyUse keyAdd add =
      .error (optionPath ++ "." ++ keyShortcut ++ " should not be used with either " ++
        keyUse ++ " or " ++ keyAdd) := by
  have hcond : (useOpt.isSome || addOpt.isSome) = true := by
    rcases h2 with h | h <;> simp [h]
  simp [processShortcuts, hcond, h1]

/-- C6: a top-level options object that declares the `publicPath` shorthand
together with `usePublicPath` or `addPublicPath` fails validation with a
Configuration Error, and likewise for the `hash` shorthand with
`useHash`/`addHash`. -/
theorem claim6_shortcut_conflict (globSync : String → String → List String) (opts : RawOptions)
    (optionPath : String)
    (h : (opts.publicPath.isSome = true ∧
            (opts.usePublicPath.isSome = true ∨ opts.addPublicPath.isSome = true)) ∨
         (opts.hash.isSome = true ∧
            (opts.useHash.isSome = true ∨ opts.addHash.isSome = true))) :
    ∃ e, getValidatedOptions globSync opts optionPath DEFAULT_OPTIONS = .error e := by
  have hmain : ∃ e, getValidatedMainOptions opts optionPath DEFAULT_OPTIONS = .error e := by
    cases hpp : processShortcuts opts.publicPath opts.usePublicPath opts.addPublicPath
        optionPath "publicPath" "usePublicPath" "addPublicPath" DEFAULT_OPTIONS.addPublicPath with
    | error e => exact ⟨e, by simp [getValidatedMainOptions, hpp]⟩
    | ok v =>
      rcases h with ⟨h1, h2⟩ | ⟨h1, h2⟩
      · rw [processShortcuts_conflict opts.publicPath opts.usePublicPath opts.addPublicPath
          optionPath "publicPath" "usePublicPath" "addPublicPath" DEFAULT_OPTIONS.addPublicPath h1 h2] at hpp
        exact Except.noConfusion hpp
      · have hh := processShortcuts_conflict opts.hash opts.useHash opts.addHash
          optionPath "hash" "useHash" "addHash" DEFAULT_OPTIONS.addHash h1 h2
        exact ⟨optionPath ++ "." ++ "hash" ++ " should not be used with either " ++
          "useHash" ++ " or " ++ "addHash", by simp [getValidatedMainOptions, hpp, hh]⟩
  obtain ⟨e, he⟩ := hmain
  exact ⟨e, by simp [getValidatedOptions, he]⟩

/-- The conflicting configuration of the C6 witness: both the `publicPath`
shorthand and `usePublicPath` declared. -/
def c6Options : RawOptions :=
  { emptyRawOptions with publicPath := some (.bool true), usePublicPath := some true }

/-- Witness for C6 at a concrete conflicting configuration. -/
theorem claim6_shortcut_conflict_witness :
    ∃ e, getValidatedOptions gsEmpty c6Options "HtmlWebpackTagsPlugin.options" DEFAULT_OPTIONS =
      .error e :=
  claim6_shortcut_conflict gsEmpty c6Options "HtmlWebpackTagsPlugin.options"
    (Or.inl ⟨rfl, Or.inl rfl⟩)

/-- Any member of a CSS-bound (non-script) bucket carrying an `external`
makes externals validation fail with a Configuration Error. -/
theorem validateTagObjectExternals_error_of_mem (tagObjects : List RawTag) (l : RawTag)
    (optionName optionPath : String) (hmem : l ∈ tagObjects) (hext : l.external.isSome = true) :
    ∃ e, validateTagObjectExternals tagObjects false optionName optionPath = .error e := by
  induction tagObjects with
  | nil => cases hmem
  | cons head rest ih =>
    cases hh : head.external with
    | some ex =>
      exact ⟨optionPath ++ "." ++ optionName ++ ".external should not be used on non script tags",
        by simp [validateTagObjectExternals, hh]⟩
    | none =>
      rcases List.mem_cons.mp hmem with rfl | hmem2
      · rw [hh] at hext
        cases hext
      · obtain ⟨e, he⟩ := ih hmem2
        exact ⟨e, by simp [validateTagObjectExternals, hh, he]⟩

/-- C7: a CSS-bound descriptor carrying `external` fails externals
validation with a Configuration Error, while a JS-bound descriptor with a
valid `{packageName, variableName}` external passes validation and, at
apply time, registers `packageName -> variableName` in the host's externals
registry. -/
theorem claim7_external_validation (t : RawTag) (pn vn : String)
    (ext0 : String → Option String) (linkTags : List RawTag) (l : RawTag)
    (optionName optionPath : String)
    (h1 : t.external = some { packageName := some pn, variableName := some vn })
    (h2 : l ∈ linkTags) (h3 : l.external.isSome = true) :
    validateTagObjectExternals [t] true optionName optionPath = .ok () ∧
    applyExternals [t] ext0 pn = some vn ∧
    ∃ e, validateTagObjectExternals linkTags false optionName optionPath = .error e := by
  refine ⟨?_, ?_, validateTagObjectExternals_error_of_mem linkTags l optionName optionPath h2 h3⟩
  · simp [validateTagObjectExternals, h1]
  · simp [applyExternals, h1, externalKey]

/-- The JS descriptor of the C7 witness, with a valid external. -/
def c7Script : RawTag :=
  { pathTag "dep.js" with
    external := some { packageName := some "jquery", variableName := some "jQuery" } }

/-- The CSS descriptor of the C7 witness, carrying an external. -/
def c7Link : RawTag :=
  { pathTag "x.css" with
    external := some { packageName := some "a", variableName := some "b" } }

/-- Witness for C7 at concrete script and link descriptors. -/
theorem claim7_external_validation_witness :
    validateTagObjectExternals [c7Script] true "tags" "HtmlWebpackTagsPlugin.options" = .ok () ∧
    applyExternals [c7Script] (fun _ => none) "jquery" = some "jQuery" ∧
    ∃ e, validateTagObjectExternals [c7Link] false "tags" "HtmlWebpackTagsPlugin.options" =
      .error e :=
  claim7_external_validation c7Script "jquery" "jQuery" (fun _ => none) [c7Link] c7Link
    "tags" "HtmlWebpackTagsPlugin.options" rfl (List.mem_singleton.mpr rfl) rfl

/-- C8: when a `files` allowlist is configured and a document's output name
matches none of its patterns (per the `minimatch` collaborator), both
extension points leave the document unchanged — the asset lists are
untouched, no source file is registered, and no attribute copy-back
happens. -/
theorem claim8_files_skip (mm : String → String → Bool) (files : List String)
    (options : ValidatedOptions) (compilationHash : String) (d : HtmlPluginData)
    (h : ∀ f ∈ files, mm d.outputName f = false) :
    onBeforeHtmlGeneration mm (some files) options compilationHash d = (d, []) ∧
    onAlterAssetTag mm (some files) options d = d := by
  have hskip : getShouldSkip mm (some files) d.outputName = true := by
    simp only [getShouldSkip, Bool.not_eq_true', List.any_eq_false]
    intro f hf
    simp [h f hf]
  constructor
  · simp [onBeforeHtmlGeneration, hskip]
  · simp [onAlterAssetTag, hskip]

/-- The document of the C8 witness, whose output name matches no allowlist
pattern. -/
def c8Doc : HtmlPluginData :=
  { outputName := "other.html",
    assets := { publicPath := "/", css := ["main.css"], js := ["main.js"] },
    head := [], body := [] }

/-- The resolved options of the C8 witness. -/
def c8Options : ValidatedOptions := finalizeValidatedOptions [] [] DEFAULT_OPTIONS

/-- Witness for C8: with `files = ["index.html"]` and a literal-equality
matcher, the document named `other.html` passes through both extension
points unchanged. -/
theorem claim8_files_skip_witness :
    (∀ f ∈ ["index.html"], ((fun (a b : String) => a == b) c8Doc.outputName f) = false) ∧
    onBeforeHtmlGeneration (fun a b => a == b) (some ["index.html"]) c8Options "h" c8Doc =
      (c8Doc, []) ∧
    onAlterAssetTag (fun a b => a == b) (some ["index.html"]) c8Options c8Doc = c8Doc := by
  have h : ∀ f ∈ ["index.html"], ((fun (a b : String) => a == b) c8Doc.outputName f) = false := by
    decide
  exact ⟨h, claim8_files_skip (fun a b => a == b) ["index.html"] c8Options "h" c8Doc h⟩

/-- Registration distributes over concatenation of the script list. -/
theorem applyExternals_append (l1 l2 : List RawTag) (ext0 : String → Option String) :
    applyExternals (l1 ++ l2) ext0 = applyExternals l2 (applyExternals l1 ext0) := by
  induction l1 generalizing ext0 with
  | nil => rfl
  | cons head rest ih =>
    cases hh : head.external with
    | some ex => simp [applyExternals, hh, ih]
    | none => simp [applyExternals, hh, ih]

/-- A registry key no script declares is left unchanged by registration. -/
theorem applyExternals_no_key (l : List RawTag) (ext0 : String → Option String) (k : String)
    (h : ∀ u ∈ l, ∀ e2, u.external = some e2 → externalKey e2 ≠ k) :
    applyExternals l ext0 k = ext0 k := by
  induction l generalizing ext0 with
  | nil => rfl
  | cons head rest ih =>
    cases hh : head.external with
    | none =>
      simp only [applyExternals, hh]
      exact ih _ fun u hu => h u (List.mem_cons_of_mem _ hu)
    | some ex =>
      have hk : externalKey ex ≠ k := h head (List.mem_cons_self _ _) ex hh
      simp only [applyExternals, hh]
      rw [ih _ fun u hu => h u (List.mem_cons_of_mem _ hu)]
      exact if_neg fun hkk => hk hkk.symm

/-- C10: externals registration is last-wins per module name — with the
scripts in declaration order, the last descriptor declaring an external for
key `n` determines the stored variable name, and any key `m` no script
declares (including pre-existing host externals) is read unchanged from the
incoming registry. -/
theorem claim10_externals_last_wins (pre post : List RawTag) (t : RawTag) (e : RawExternal)
    (n m : String) (ext0 : String → Option String)
    (h1 : t.external = some e) (h2 : externalKey e = n)
    (h3 : ∀ u ∈ post, ∀ e2, u.external = some e2 → externalKey e2 ≠ n)
    (h4 : ∀ u ∈ pre ++ t :: post, ∀ e2, u.external = some e2 → externalKey e2 ≠ m) :
    applyExternals (pre ++ t :: post) ext0 n = e.variableName ∧
    applyExternals (pre ++ t :: post) ext0 m = ext0 m := by
  constructor
  · rw [applyExternals_append]
    simp only [applyExternals, h1]
    rw [applyExternals_no_key post _ n h3]
    simp [h2]
  · exact applyExternals_no_key _ ext0 m h4

/-- Earlier-declared external for `pkg` in the C10 witness. -/
def c10First : RawTag :=
  { pathTag "a.js" with
    external := some { packageName := some "pkg", variableName := some "v1" } }

/-- Later-declared external for `pkg` in the C10 witness. -/
def c10Second : RawTag :=
  { pathTag "b.js" with
    external := some { packageName := some "pkg", variableName := some "v2" } }

/-- Pre-existing host externals of the C10 witness. -/
def c10Ext0 : String → Option String := fun s => if s = "react" then some "React" else none

/-- Witness for C10: with two externals declared for `pkg`, the later
variable name `v2` wins, and the pre-existing `react` entry is unchanged. -/
theorem claim10_externals_last_wins_witness :
    applyExternals [c10First, c10Second] c10Ext0 "pkg" = some "v2" ∧
    applyExternals [c10First, c10Second] c10Ext0 "react" = c10Ext0 "react" := by
  have h3 : ∀ u ∈ ([] : List RawTag), ∀ e2, u.external = some e2 → externalKey e2 ≠ "pkg" := by
    intro u hu
    exact absurd hu (List.not_mem_nil u)
  have h4 : ∀ u ∈ [c10First] ++ c10Second :: ([] : List RawTag), ∀ e2,
      u.external = some e2 → externalKey e2 ≠ "react" := by
    intro u hu e2 he2
    simp only [List.cons_append, List.nil_append, List.mem_cons, List.not_mem_nil, or_false] at hu
    rcases hu with rfl | rfl
    · injection he2 with h
      subst h
      decide
    · injection he2 with h
      subst h
      decide
  exact claim10_externals_last_wins [c10First] [] c10Second
    { packageName := some "pkg", variableName := some "v2" } "pkg" "react" c10Ext0
    rfl rfl h3 h4

end HtmlWebpackTags
